import Mathlib

/-!
Verification of the DonutSlicer visual (source file `part_000`, the complete
revision of `donutSlicer.ts`, plus its historical snapshots).

The embedding follows the TypeScript source:
* `visualTransform` (lines 66-90 of part_000) builds the view model from the
  host update; JavaScript property accesses on possibly-absent values are
  modelled with `Option`, and a JavaScript `TypeError` (reading a property of
  `undefined`/`null`) is modelled as `Except.error ()`.
* `DonutSlicer.update` (lines 111-188) renders: it resizes the svg, appends a
  fresh group translated to the viewport centre, lays the counts out as a pie,
  draws one path per datum filled from the `category20b` ordinal scale, and
  draws legend rows bound to `color.domain()`.
* Numbers are embedded as `ℚ` (the source only adds, subtracts, multiplies and
  divides viewport sizes and counts).  Angles are measured in degrees, the full
  circle `360` standing for the source's `2π` radians: the pie layout is linear
  in the angular unit, so every proportionality and summation statement
  transfers verbatim between the two units.
-/

/-- A data point of the view model: `interface DonutSlicerDataPoint`
(part_000 lines 53-56): `count: number; category: string`. -/
structure DonutSlicerDataPoint where
  count : ℚ
  category : String
deriving DecidableEq, Repr

/-- The view model: `interface DonutSlicerViewModel` (part_000 lines 37-39). -/
structure DonutSlicerViewModel where
  dataPoints : List DonutSlicerDataPoint
deriving DecidableEq, Repr

/-- One table row as accessed by the source (`slice[0]` is the count cell,
`slice[1]` the category cell).  The category cell may be absent
(JavaScript `undefined`), and the empty string is falsy, which is what the
source's `if (slice[1])` tests. -/
structure TableRow where
  count : ℚ
  category : Option String
deriving DecidableEq, Repr

/-- `dataViews[0].table` of the host data view: holds the `rows` array.
In the host ABI `rows` is a required field of the table. -/
structure DataTable where
  rows : List TableRow
deriving DecidableEq, Repr

/-- `dataViews[0].metadata`: a required field of a data view in the host ABI;
its `objects` property may be absent (line 74 reads it and discards it). -/
structure DataViewMetadata where
  objects : Option Unit
deriving DecidableEq, Repr

/-- One entry of `options.dataViews`.  `table` is optional in the host ABI:
the source reads `dataViews[0].table.rows` without checking it (line 76). -/
structure DataView where
  metadata : DataViewMetadata
  table : Option DataTable
deriving DecidableEq, Repr

/-- The viewport handed by the host (`options.viewport`). -/
structure Viewport where
  width : ℚ
  height : ℚ
deriving DecidableEq, Repr

/-- `VisualUpdateOptions` as used by the source: `dataViews` may be absent
(line 69 tests `!options.dataViews`) and `viewport` is read unguarded
(lines 120-121). -/
structure VisualUpdateOptions where
  dataViews : Option (List DataView)
  viewport : Viewport
deriving DecidableEq, Repr

/-- The body of the row loop (part_000 lines 76-83): a row is pushed exactly
when `slice[1]` is truthy, i.e. the category cell is present and non-empty;
the pushed point is `{count: slice[0], category: slice[1]}`. -/
def rowToDataPoint (r : TableRow) : Option DonutSlicerDataPoint :=
  match r.category with
  | none => none
  | some c => if c = "" then none else some ⟨r.count, c⟩

/-- The data-point list built by the row loop of `visualTransform`
(part_000 lines 73-83). -/
def toDataPoints (rows : List TableRow) : List DonutSlicerDataPoint :=
  rows.filterMap rowToDataPoint

/-- `visualTransform` (part_000 lines 66-90).  `Except.error ()` models the
JavaScript `TypeError` raised at line 76 when `dataViews[0].table` is absent
(`.rows` is then read off `undefined`); `Except.ok none` models the explicit
`return null` of lines 68-71. -/
def visualTransform (options : Option VisualUpdateOptions) :
    Except Unit (Option DonutSlicerViewModel) :=
  match options with
  | none => Except.ok none
  | some o =>
    match o.dataViews with
    | none => Except.ok none
    | some dvs =>
      match dvs.head? with
      | none => Except.ok none
      | some dv =>
        let _objects := dv.metadata.objects
        match dv.table with
        | none => Except.error ()
        | some t => Except.ok (some ⟨toDataPoints t.rows⟩)

/-- The fixed qualitative palette of `d3.scale.category20b()` (line 129).
Modelled from the spec: the palette itself lives in the bundled d3 library,
not under src/; the spec describes it as a fixed, deterministic qualitative
palette of 20 entries with modulo cycling, and these are the 20 documented
category20b colours. -/
def category20b : List String :=
  ["#393b79", "#5254a3", "#6b6ecf", "#9c9ede", "#637939",
   "#8ca252", "#b5cf6b", "#cedb9c", "#8c6d31", "#bd9e39",
   "#e7ba52", "#e7cb94", "#843c39", "#ad494a", "#d6616b",
   "#e7969c", "#7b4173", "#a55194", "#ce6dbd", "#de9ed6"]

/-- Colour returned by the ordinal scale for the `i`-th distinct key.
Modelled from the spec: the d3 ordinal scale is library code; the spec fixes
its behaviour as deterministic modulo-length cycling over the palette.  The
source feeds the scale the keys `0, 1, 2, ...` in order (line 156), so the
`i`-th key receives palette entry `i mod 20`. -/
def category20bColor (i : ℕ) : String :=
  category20b.getD (i % 20) ("")

/-- One arc path appended by the `path` selection (part_000 lines 146-158):
the d3 arc generator is configured with `innerRadius(radius - donutWidth)`
and `outerRadius(radius)` (lines 131-133), the angles come from the pie
layout and the fill from the ordinal scale. -/
structure ArcInstr where
  startAngle : ℚ
  endAngle : ℚ
  innerRadius : ℚ
  outerRadius : ℚ
  fill : String
deriving DecidableEq, Repr

/-- One legend row (part_000 lines 160-188): a group translated to
`(horz, vert)` holding an 18×18 square filled with the scale colour for the
bound datum, and a text node showing the bound datum.  The data bound to the
legend selection is `color.domain()` — the list of keys fed to the scale,
i.e. the indices `0..n-1` — so the drawn text is the decimal rendering of the
index (the `label` field). -/
structure LegendRow where
  horz : ℚ
  vert : ℚ
  squareSize : ℚ
  fill : String
  label : String
deriving DecidableEq, Repr

/-- The group appended to the svg by one `update` call (lines 136-140):
translated to the viewport centre and holding that call's arcs and legend
rows. -/
structure RenderGroup where
  translate : ℚ × ℚ
  arcs : List ArcInstr
  legend : List LegendRow
deriving DecidableEq, Repr

/-- The drawable surface (the svg element owned by the visual): its current
`width`/`height` attributes and the groups appended so far.  `update` never
removes previously appended groups. -/
structure Surface where
  width : ℚ
  height : ℚ
  groups : List RenderGroup
deriving DecidableEq, Repr

/-- A freshly constructed svg (constructor, lines 97-101): no groups yet. -/
def Surface.empty : Surface := ⟨0, 0, []⟩

/-- Start/end angles assigned sequentially: each value `v` occupies the span
`v * k` starting where the previous one ended. -/
def pieArcsFrom (k : ℚ) : ℚ → List ℚ → List (ℚ × ℚ)
  | _, [] => []
  | a, v :: vs => (a, a + v * k) :: pieArcsFrom k (a + v * k) vs

/-- The pie layout `d3.layout.pie().value(d => d)` (part_000 lines 143-144).
Modelled from the spec: the layout itself is d3 library code, not under src/;
the spec fixes its behaviour as: each datum's angular span is proportional to
`count / sum(all counts)`, spans are laid out in input order starting at
angle 0, and a zero sum yields zero spans for all (`0/0 := 0`, no NaN).
Angles are in degrees: the full circle is `360` (standing for `2π`). -/
def pieLayout (values : List ℚ) : List (ℚ × ℚ) :=
  pieArcsFrom (if values.sum = 0 then 0 else 360 / values.sum) 0 values

/-- The arcs of one update call: the `i`-th pie slice becomes a path with the
configured radii and fill `color(i)` (lines 146-158). -/
def arcsFrom (innerR outerR : ℚ) : ℕ → List (ℚ × ℚ) → List ArcInstr
  | _, [] => []
  | i, (s, e) :: rest => ⟨s, e, innerR, outerR, category20bColor i⟩ :: arcsFrom innerR outerR (i + 1) rest

/-- One legend row for domain entry `i` of `n` (part_000 lines 160-188):
`height = legendRectSize + legendSpacing = 22`, `offset = 22 * n / 2`,
`horz = -2 * legendRectSize = -36`, `vert = i * 22 - offset`; the square is
18×18 filled with `color(i)` and the text is the datum `i` itself. -/
def legendRow (n : ℕ) (i : ℕ) : LegendRow :=
  { horz := -2 * 18
    vert := (i : ℚ) * (18 + 4) - (18 + 4) * (n : ℚ) / 2
    squareSize := 18
    fill := category20bColor i
    label := toString i }

/-- The legend of one update call: the data bound is `color.domain()`, which
after the arc fills ran is the key list `0..n-1` in insertion order
(line 161), one row per entry. -/
def legendFrom (n : ℕ) : List LegendRow :=
  (List.range n).map (legendRow n)

/-- The group appended by one `update` call rendering view model `vm` at
viewport `vp` (part_000 lines 120-188): `radius = min(width, height) / 2`
(line 122), `donutWidth = 50` (line 123), translation to the centre
(line 140), pie over the counts (lines 143-149), arcs and legend as above. -/
def renderGroup (vm : DonutSlicerViewModel) (vp : Viewport) : RenderGroup :=
  let radius := min vp.width vp.height / 2
  let donutWidth : ℚ := 50
  let counts := vm.dataPoints.map (fun d => d.count)
  { translate := (vp.width / 2, vp.height / 2)
    arcs := arcsFrom (radius - donutWidth) radius 0 (pieLayout counts)
    legend := legendFrom vm.dataPoints.length }

/-- `DonutSlicer.update` (part_000 lines 111-189).  It first builds the view
model (line 119; a builder `TypeError` propagates), then reads
`options.viewport` (line 120: a `TypeError` if `options` is null), resizes
the svg and appends a fresh group (lines 136-140), and then dereferences
`viewModel.dataPoints` (line 147): if the builder returned null this raises a
`TypeError` — the source has no null check before that read.  On success the
new group is appended after all groups of previous calls: nothing is ever
removed from the svg.  (When the run ends in a `TypeError` the partially
mutated svg is abandoned by the host; the error value models that run.) -/
def DonutSlicer.update (options : Option VisualUpdateOptions) (svg : Surface) :
    Except Unit Surface :=
  match visualTransform options with
  | Except.error e => Except.error e
  | Except.ok vm =>
    match options with
    | none => Except.error ()
    | some o =>
      match vm with
      | none => Except.error ()
      | some v =>
        Except.ok { width := o.viewport.width
                    height := o.viewport.height
                    groups := svg.groups ++ [renderGroup v o.viewport] }

/-! ### Helper lemmas about the arc pipeline -/

theorem map_span_pieArcsFrom (k : ℚ) :
    ∀ (a : ℚ) (vs : List ℚ),
      (pieArcsFrom k a vs).map (fun p => p.2 - p.1) = vs.map (fun v => v * k)
  | _, [] => rfl
  | a, v :: vs => by
      simp [pieArcsFrom, map_span_pieArcsFrom k (a + v * k) vs]

theorem map_span_arcsFrom (innerR outerR : ℚ) :
    ∀ (i : ℕ) (ps : List (ℚ × ℚ)),
      (arcsFrom innerR outerR i ps).map (fun a => a.endAngle - a.startAngle)
        = ps.map (fun p => p.2 - p.1)
  | _, [] => rfl
  | i, (s, e) :: rest => by
      simp [arcsFrom, map_span_arcsFrom innerR outerR (i + 1) rest]

theorem length_arcsFrom (innerR outerR : ℚ) :
    ∀ (i : ℕ) (ps : List (ℚ × ℚ)), (arcsFrom innerR outerR i ps).length = ps.length
  | _, [] => rfl
  | i, (s, e) :: rest => by
      simp [arcsFrom, length_arcsFrom innerR outerR (i + 1) rest]

theorem length_pieArcsFrom (k : ℚ) :
    ∀ (a : ℚ) (vs : List ℚ), (pieArcsFrom k a vs).length = vs.length
  | _, [] => rfl
  | a, v :: vs => by
      simp [pieArcsFrom, length_pieArcsFrom k (a + v * k) vs]

theorem mem_arcsFrom_radii (innerR outerR : ℚ) :
    ∀ (i : ℕ) (ps : List (ℚ × ℚ)) (a : ArcInstr), a ∈ arcsFrom innerR outerR i ps →
      a.innerRadius = innerR ∧ a.outerRadius = outerR
  | _, [], a, h => absurd h (List.not_mem_nil a)
  | i, (s, e) :: rest, a, h => by
      rcases List.mem_cons.mp h with h1 | h2
      · subst h1; exact ⟨rfl, rfl⟩
      · exact mem_arcsFrom_radii innerR outerR (i + 1) rest a h2

theorem get_arcsFrom_fill (innerR outerR : ℚ) :
    ∀ (j : ℕ) (ps : List (ℚ × ℚ)) (i : ℕ) (h : i < (arcsFrom innerR outerR j ps).length),
      ((arcsFrom innerR outerR j ps).get ⟨i, h⟩).fill = category20bColor (j + i)
  | _, [], i, h => absurd h (by simp [arcsFrom])
  | j, (s, e) :: rest, 0, h => by simp [arcsFrom]
  | j, (s, e) :: rest, i + 1, h => by
      have ih := get_arcsFrom_fill innerR outerR (j + 1) rest i
        (by simpa [arcsFrom] using Nat.lt_of_succ_lt_succ h)
      simpa [arcsFrom, Nat.add_assoc, Nat.add_comm 1 i] using ih

theorem sum_map_mul_const (k : ℚ) :
    ∀ (vs : List ℚ), (vs.map (fun v => v * k)).sum = vs.sum * k
  | [] => by simp
  | v :: vs => by
      simp [sum_map_mul_const k vs, add_mul]

/-! ### C1 -/

/-- The four-row example of the spec: rows `(10, A), (20, B), (30, C), (40, D)`. -/
def exampleVM : DonutSlicerViewModel :=
  ⟨[⟨10, "A"⟩, ⟨20, "B"⟩, ⟨30, "C"⟩, ⟨40, "D"⟩]⟩

/-- The spec's example viewport, 200 by 200. -/
def exampleVP : Viewport := ⟨200, 200⟩

/-- C1: for every view model whose counts have positive sum and every
viewport, the arc spans produced by the renderer are `360 * count / sum` in
input order (i.e. proportional to `count / sum` of the full circle, `360`
degrees standing for `2π`), the spans sum to the full circle, and every arc's
outer radius is `min(width, height) / 2`. -/
theorem arc_spans_proportional (vm : DonutSlicerViewModel) (vp : Viewport)
    (h : 0 < (vm.dataPoints.map (fun d => d.count)).sum) :
    ((renderGroup vm vp).arcs.map (fun a => a.endAngle - a.startAngle))
        = vm.dataPoints.map
            (fun d => 360 * d.count / (vm.dataPoints.map (fun d => d.count)).sum)
    ∧ ((renderGroup vm vp).arcs.map (fun a => a.endAngle - a.startAngle)).sum = 360
    ∧ ∀ a ∈ (renderGroup vm vp).arcs, a.outerRadius = min vp.width vp.height / 2 := by
  have hs : (vm.dataPoints.map (fun d => d.count)).sum ≠ 0 := ne_of_gt h
  have hspans : ((renderGroup vm vp).arcs.map (fun a => a.endAngle - a.startAngle))
      = (vm.dataPoints.map (fun d => d.count)).map
          (fun v => v * (360 / (vm.dataPoints.map (fun d => d.count)).sum)) := by
    simp only [renderGroup, pieLayout, if_neg hs, map_span_arcsFrom, map_span_pieArcsFrom]
  refine ⟨?_, ?_, ?_⟩
  · rw [hspans, List.map_map]
    refine List.map_congr_left (fun d _ => ?_)
    simp only [Function.comp_apply]
    ring
  · rw [hspans, sum_map_mul_const, mul_comm,
      div_mul_cancel₀ (360 : ℚ) hs]
  · intro a ha
    have := mem_arcsFrom_radii _ _ 0 _ a (by simpa [renderGroup] using ha)
    exact this.2

/-- Witness for C1 at the spec's example: spans `36°, 72°, 108°, 144°` in
input order, summing to the full circle, with radius `100`. -/
theorem arc_spans_proportional_witness :
    ((renderGroup exampleVM exampleVP).arcs.map (fun a => a.endAngle - a.startAngle)).sum = 360
    ∧ ((renderGroup exampleVM exampleVP).arcs.map (fun a => a.endAngle - a.startAngle))
        = [36, 72, 108, 144]
    ∧ ∀ a ∈ (renderGroup exampleVM exampleVP).arcs, a.outerRadius = 100 := by
  have h := arc_spans_proportional exampleVM exampleVP (by norm_num [exampleVM])
  have hlist : ((renderGroup exampleVM exampleVP).arcs.map
      (fun a => a.endAngle - a.startAngle)) = [36, 72, 108, 144] := by
    rw [h.1]
    norm_num [exampleVM]
  refine ⟨h.2.1, hlist, fun a ha => ?_⟩
  have h100 : min exampleVP.width exampleVP.height / 2 = 100 := by
    norm_num [exampleVP]
  exact h100 ▸ h.2.2 a ha

/-! ### C2 and C10: the builder's null guard and its table precondition -/

/-- An update whose first data view is present but has no `table`. -/
def tablelessOptions : VisualUpdateOptions :=
  ⟨some [⟨⟨none⟩, none⟩], ⟨100, 100⟩⟩

/-- Counterexample to C2: this update is present, its data-view collection is
present, and the collection's first entry is present, yet the builder returns
neither `null` nor a view model — it raises a `TypeError` reading
`dataViews[0].table.rows` (line 76), because the first data view has no
table. -/
theorem visualTransform_not_total :
    visualTransform (some tablelessOptions) = Except.error () := rfl

/-- C2 (amended): the builder returns `null` exactly when the update, its
data-view collection, or the collection's first entry is absent; in every
other case in which the first data view carries a table, it returns the
(possibly empty) view model built from that table's rows.  (When the first
data view lacks a table it does neither: it raises, see
`visualTransform_not_total`.) -/
theorem visualTransform_null_iff (options : Option VisualUpdateOptions) :
    (visualTransform options = Except.ok none ↔
      options = none
      ∨ ∃ o, options = some o ∧ (o.dataViews = none ∨ o.dataViews = some []))
    ∧ (∀ o dv dvs t, options = some o → o.dataViews = some (dv :: dvs) →
        dv.table = some t →
        visualTransform options = Except.ok (some ⟨toDataPoints t.rows⟩)) := by
  refine ⟨⟨?_, ?_⟩, ?_⟩
  · intro h
    match options with
    | none => exact Or.inl rfl
    | some ⟨none, vp⟩ => exact Or.inr ⟨_, rfl, Or.inl rfl⟩
    | some ⟨some [], vp⟩ => exact Or.inr ⟨_, rfl, Or.inr rfl⟩
    | some ⟨some (dv :: dvs), vp⟩ =>
      exfalso
      rcases htab : dv.table with _ | t
      · have hv : visualTransform (some ⟨some (dv :: dvs), vp⟩) = Except.error () := by
          simp [visualTransform, htab]
        rw [hv] at h
        exact Except.noConfusion h
      · have hv : visualTransform (some ⟨some (dv :: dvs), vp⟩)
            = Except.ok (some ⟨toDataPoints t.rows⟩) := by
          simp [visualTransform, htab]
        rw [hv] at h
        simp at h
  · rintro (rfl | ⟨o, rfl, hdv | hdv⟩)
    · rfl
    · obtain ⟨dvsOpt, vp⟩ := o
      simp only at hdv
      subst hdv
      rfl
    · obtain ⟨dvsOpt, vp⟩ := o
      simp only at hdv
      subst hdv
      rfl
  · rintro o dv dvs t rfl h2 h3
    obtain ⟨dvsOpt, vp⟩ := o
    simp only at h2
    subst h2
    simp [visualTransform, h3]

/-- A well-formed update: first data view has a table with two rows, the
second of which has no category cell. -/
def okOptions : VisualUpdateOptions :=
  ⟨some [⟨⟨none⟩, some ⟨[⟨10, some "A"⟩, ⟨5, none⟩]⟩⟩], ⟨200, 200⟩⟩

/-- Witness for C2 (amended) at a concrete well-formed update. -/
theorem visualTransform_null_iff_witness :
    visualTransform (some okOptions) = Except.ok (some ⟨[⟨10, "A"⟩]⟩) := by
  have h := (visualTransform_null_iff (some okOptions)).2 okOptions
    ⟨⟨none⟩, some ⟨[⟨10, some "A"⟩, ⟨5, none⟩]⟩⟩ []
    ⟨[⟨10, some "A"⟩, ⟨5, none⟩]⟩ rfl rfl rfl
  rw [h]
  rfl

/-- An update whose first data view lacks a table (for the C10 witness). -/
def tablelessOptions10 : VisualUpdateOptions :=
  ⟨some [⟨⟨some ()⟩, none⟩], ⟨50, 80⟩⟩

/-- C10: the guard of `visualTransform` (lines 68-71) checks only the update,
the collection and its first entry; the `dataViews[0].table.rows` read at
line 76 is unguarded, so on a first data view without a table the builder
raises (returns neither `null` nor a view model), and it is total exactly
under the extra precondition that the first data view carries a table. -/
theorem visualTransform_table_unguarded (o : VisualUpdateOptions)
    (dv : DataView) (dvs : List DataView) (h : o.dataViews = some (dv :: dvs)) :
    (dv.table = none → visualTransform (some o) = Except.error ())
    ∧ (∀ t, dv.table = some t →
        visualTransform (some o) = Except.ok (some ⟨toDataPoints t.rows⟩)) := by
  obtain ⟨dvsOpt, vp⟩ := o
  simp only at h
  subst h
  constructor
  · intro htab
    simp [visualTransform, htab]
  · intro t htab
    simp [visualTransform, htab]

/-- Witness for C10: a concrete tableless first data view makes the builder
raise. -/
theorem visualTransform_table_unguarded_witness :
    visualTransform (some tablelessOptions10) = Except.error () := by
  exact (visualTransform_table_unguarded tablelessOptions10 ⟨⟨some ()⟩, none⟩ []
    rfl).1 rfl

/-! ### C6: which rows the builder keeps -/

/-- The row guard `if (slice[1])` as a Boolean predicate: the category cell is
present and non-empty. -/
def hasCategory (r : TableRow) : Bool :=
  match r.category with
  | none => false
  | some c => if c = "" then false else true

/-- The data point a kept row turns into. -/
def keptDataPoint (r : TableRow) : DonutSlicerDataPoint :=
  ⟨r.count, (r.category).getD ("")⟩

/-- C6: the builder keeps exactly the rows whose category cell is present and
non-empty (in particular a kept row's count may be `0`): the built list is
the input filtered by the category guard, every built point has a non-empty
category, and every row with a non-empty category — whatever its count —
contributes its point. -/
theorem builder_keeps_exactly_categorised_rows (rows : List TableRow) :
    toDataPoints rows = (rows.filter hasCategory).map keptDataPoint
    ∧ (∀ dp ∈ toDataPoints rows, dp.category ≠ "")
    ∧ (∀ r ∈ rows, ∀ c, r.category = some c → c ≠ "" →
        (⟨r.count, c⟩ : DonutSlicerDataPoint) ∈ toDataPoints rows) := by
  refine ⟨?_, ?_, ?_⟩
  · induction rows with
    | nil => rfl
    | cons r rest ih =>
      rcases hc : r.category with _ | c
      · have h1 : rowToDataPoint r = none := by simp [rowToDataPoint, hc]
        have h2 : hasCategory r = false := by simp [hasCategory, hc]
        simpa [toDataPoints, List.filterMap_cons, h1, h2] using ih
      · by_cases he : c = ""
        · have h1 : rowToDataPoint r = none := by simp [rowToDataPoint, hc, he]
          have h2 : hasCategory r = false := by simp [hasCategory, hc, he]
          simpa [toDataPoints, List.filterMap_cons, h1, h2] using ih
        · have h1 : rowToDataPoint r = some ⟨r.count, c⟩ := by
            simp [rowToDataPoint, hc, he]
          have h2 : hasCategory r = true := by simp [hasCategory, hc, he]
          have h3 : keptDataPoint r = ⟨r.count, c⟩ := by
            simp [keptDataPoint, hc]
          simpa [toDataPoints, List.filterMap_cons, h1, h2, h3] using ih
  · intro dp hdp
    obtain ⟨r, _, hr⟩ := List.mem_filterMap.mp hdp
    rcases hc : r.category with _ | c
    · simp [rowToDataPoint, hc] at hr
    · by_cases he : c = ""
      · simp [rowToDataPoint, hc, he] at hr
      · simp [rowToDataPoint, hc, he] at hr
        rw [← hr]
        exact he
  · intro r hr c hc hne
    refine List.mem_filterMap.mpr ⟨r, hr, ?_⟩
    simp [rowToDataPoint, hc, hne]

/-- The rows for the C6 witness: a zero-count categorised row, a category-less
row, an empty-category row, and an ordinary row. -/
def c6rows : List TableRow :=
  [⟨0, some "X"⟩, ⟨5, none⟩, ⟨3, some ""⟩, ⟨7, some "Y"⟩]

/-- Witness for C6: on `c6rows` the zero-count row `(0, X)` is kept and the
builder keeps exactly `(0, X)` and `(7, Y)`. -/
theorem builder_keeps_exactly_categorised_rows_witness :
    (⟨0, "X"⟩ : DonutSlicerDataPoint) ∈ toDataPoints c6rows
    ∧ toDataPoints c6rows = [⟨0, "X"⟩, ⟨7, "Y"⟩] := by
  refine ⟨?_, rfl⟩
  exact (builder_keeps_exactly_categorised_rows c6rows).2.2
    ⟨0, some "X"⟩ (by simp [c6rows]) "X" rfl (by simp)

/-! ### C4: order preservation through builder and renderer -/

theorem toDataPoints_sublist_rows (rows : List TableRow) :
    List.Sublist ((toDataPoints rows).map (fun d => (d.count, some d.category)))
      (rows.map (fun r => (r.count, r.category))) := by
  induction rows with
  | nil => simp [toDataPoints]
  | cons r rest ih =>
    rcases hc : r.category with _ | c
    · have h1 : rowToDataPoint r = none := by simp [rowToDataPoint, hc]
      simp only [toDataPoints, List.filterMap_cons, h1, List.map_cons]
      exact List.Sublist.cons _ ih
    · by_cases he : c = ""
      · have h1 : rowToDataPoint r = none := by simp [rowToDataPoint, hc, he]
        simp only [toDataPoints, List.filterMap_cons, h1, List.map_cons]
        exact List.Sublist.cons _ ih
      · have h1 : rowToDataPoint r = some ⟨r.count, c⟩ := by
          simp [rowToDataPoint, hc, he]
        simp only [toDataPoints, List.filterMap_cons, h1, List.map_cons, hc]
        exact List.Sublist.cons₂ _ ih

/-- C4: the builder preserves input row order (the built points, seen as
`(count, category)` pairs, form a sublist of the input rows), and the
renderer consumes them positionally: the `i`-th arc's span is the `i`-th data
point's `count * k` (no reordering by value), the legend rows are bound to
the indices `0..n-1` in that order, and their vertical offsets are strictly
increasing (top to bottom in input order). -/
theorem order_preserved (rows : List TableRow) (vp : Viewport) :
    (List.Sublist ((toDataPoints rows).map (fun d => (d.count, some d.category)))
        (rows.map (fun r => (r.count, r.category))))
    ∧ ((renderGroup ⟨toDataPoints rows⟩ vp).arcs.map (fun a => a.endAngle - a.startAngle))
        = (toDataPoints rows).map (fun d => d.count *
            (if ((toDataPoints rows).map (fun d => d.count)).sum = 0 then 0
              else 360 / ((toDataPoints rows).map (fun d => d.count)).sum))
    ∧ ((renderGroup ⟨toDataPoints rows⟩ vp).legend.map (fun l => l.label))
        = (List.range (toDataPoints rows).length).map (fun i => toString i)
    ∧ List.Pairwise (fun a b => a < b)
        ((renderGroup ⟨toDataPoints rows⟩ vp).legend.map (fun l => l.vert)) := by
  refine ⟨toDataPoints_sublist_rows rows, ?_, ?_, ?_⟩
  · simp only [renderGroup, pieLayout, map_span_arcsFrom, map_span_pieArcsFrom,
      List.map_map]
    rfl
  · simp only [renderGroup, legendFrom, List.map_map]
    rfl
  · have hmap : ((renderGroup ⟨toDataPoints rows⟩ vp).legend.map (fun l => l.vert))
        = (List.range (toDataPoints rows).length).map
            (fun i : ℕ =>
              (i : ℚ) * (18 + 4) - (18 + 4) * ((toDataPoints rows).length : ℚ) / 2) := by
      simp only [renderGroup, legendFrom, List.map_map]
      rfl
    rw [hmap]
    refine List.Pairwise.map _ (fun a b hab => ?_) (List.pairwise_lt_range _)
    have hcast : (a : ℚ) < b := by exact_mod_cast hab
    have h22 : (0 : ℚ) < 18 + 4 := by norm_num
    exact sub_lt_sub_right (mul_lt_mul_of_pos_right hcast h22) _

/-! ### C3: behaviour on a null view model -/

/-- C3: `update` does not handle the builder's `null`.  With a null update
(`options` absent) the read `options.viewport.width` (line 120) raises; with
a present update whose `dataViews` is absent the builder returns `null` and
the read `viewModel.dataPoints` (line 147) raises.  In neither case is the
surface cleared and the call returned normally. -/
theorem update_throws_on_null_viewmodel :
    DonutSlicer.update (some ⟨none, ⟨100, 100⟩⟩) Surface.empty = Except.error ()
    ∧ DonutSlicer.update none Surface.empty = Except.error () :=
  ⟨rfl, rfl⟩

/-! ### C5: zero-sum counts -/

theorem map_angles_arcsFrom (innerR outerR : ℚ) :
    ∀ (i : ℕ) (ps : List (ℚ × ℚ)),
      (arcsFrom innerR outerR i ps).map (fun a => (a.startAngle, a.endAngle)) = ps
  | _, [] => rfl
  | i, (s, e) :: rest => by
      simp [arcsFrom, map_angles_arcsFrom innerR outerR (i + 1) rest]

theorem pieArcsFrom_zero (a : ℚ) : ∀ (vs : List ℚ),
    pieArcsFrom 0 a vs = List.replicate vs.length (a, a)
  | [] => rfl
  | v :: vs => by
      simp [pieArcsFrom, List.replicate_succ, pieArcsFrom_zero a vs]

/-- Two retained rows whose counts are both zero. -/
def zeroVM : DonutSlicerViewModel := ⟨[⟨0, "X"⟩, ⟨0, "Y"⟩]⟩

/-- Counterexample to C5 as stated: with two zero-count points the renderer
still emits one arc instruction per point (two zero-extent arcs), so "no arc
is drawn" fails at this input — the spec's own example acknowledges the two
zero-angle arcs. -/
theorem zero_sum_arcs_still_emitted :
    (renderGroup zeroVM ⟨100, 100⟩).arcs.length = 2
    ∧ (renderGroup zeroVM ⟨100, 100⟩).arcs ≠ [] := by
  have hlen : (renderGroup zeroVM ⟨100, 100⟩).arcs.length = 2 := by
    simp only [renderGroup]
    rw [length_arcsFrom, pieLayout, length_pieArcsFrom]
    simp [zeroVM]
  refine ⟨hlen, fun hnil => ?_⟩
  rw [hnil] at hlen
  simp at hlen

/-- C5 (amended): whenever the counts sum to zero (the empty list included),
every data point still yields one arc instruction, and every such arc has
start and end angle `0` — a zero span, with no undefined angles (`0/0` is
taken as `0`). -/
theorem zero_sum_zero_spans (vm : DonutSlicerViewModel) (vp : Viewport)
    (h : (vm.dataPoints.map (fun d => d.count)).sum = 0) :
    ((renderGroup vm vp).arcs.map (fun a => (a.startAngle, a.endAngle)))
        = List.replicate vm.dataPoints.length ((0 : ℚ), (0 : ℚ))
    ∧ ∀ a ∈ (renderGroup vm vp).arcs, a.endAngle - a.startAngle = 0 := by
  have hangles : ((renderGroup vm vp).arcs.map (fun a => (a.startAngle, a.endAngle)))
      = List.replicate vm.dataPoints.length ((0 : ℚ), (0 : ℚ)) := by
    simp only [renderGroup]
    rw [map_angles_arcsFrom, pieLayout, if_pos h, pieArcsFrom_zero]
    simp
  refine ⟨hangles, fun a ha => ?_⟩
  have hmem : (a.startAngle, a.endAngle)
      ∈ List.replicate vm.dataPoints.length ((0 : ℚ), (0 : ℚ)) := by
    rw [← hangles]
    exact List.mem_map_of_mem _ ha
  have heq := List.eq_of_mem_replicate hmem
  have h1 : a.startAngle = 0 := congrArg Prod.fst heq
  have h2 : a.endAngle = 0 := congrArg Prod.snd heq
  rw [h1, h2]
  ring

/-- Witness for C5 (amended) at the two-zero-row example. -/
theorem zero_sum_zero_spans_witness :
    ((renderGroup zeroVM ⟨100, 100⟩).arcs.map (fun a => (a.startAngle, a.endAngle)))
        = [((0 : ℚ), (0 : ℚ)), ((0 : ℚ), (0 : ℚ))] := by
  have h := zero_sum_zero_spans zeroVM ⟨100, 100⟩ (by simp [zeroVM])
  rw [h.1]
  rfl

/-! ### C7: deterministic palette assignment -/

theorem renderGroup_arcs_eq (vm : DonutSlicerViewModel) (vp : Viewport) :
    (renderGroup vm vp).arcs
      = arcsFrom (min vp.width vp.height / 2 - 50) (min vp.width vp.height / 2) 0
          (pieLayout (vm.dataPoints.map (fun d => d.count))) := rfl

/-- C7: the fill of the arc at position `i` is palette entry `i mod 20` of
the fixed 20-entry `category20b` palette, whatever the view model and
viewport — so the assignment is a function of the index alone, identical
across updates. -/
theorem arc_fill_palette (vm vm2 : DonutSlicerViewModel) (vp vp2 : Viewport) (i : ℕ)
    (h : i < (renderGroup vm vp).arcs.length)
    (h2 : i < (renderGroup vm2 vp2).arcs.length) :
    ((renderGroup vm vp).arcs.get ⟨i, h⟩).fill = category20b.getD (i % 20) ("")
    ∧ category20b.length = 20
    ∧ ((renderGroup vm2 vp2).arcs.get ⟨i, h2⟩).fill
        = ((renderGroup vm vp).arcs.get ⟨i, h⟩).fill := by
  have hlt1 : i < (arcsFrom (min vp.width vp.height / 2 - 50) (min vp.width vp.height / 2) 0
      (pieLayout (vm.dataPoints.map DonutSlicerDataPoint.count))).length := h
  have hlt2 : i < (arcsFrom (min vp2.width vp2.height / 2 - 50) (min vp2.width vp2.height / 2) 0
      (pieLayout (vm2.dataPoints.map DonutSlicerDataPoint.count))).length := h2
  have g1 : ((renderGroup vm vp).arcs.get ⟨i, h⟩).fill = category20bColor (0 + i) :=
    get_arcsFrom_fill (min vp.width vp.height / 2 - 50) (min vp.width vp.height / 2) 0
      (pieLayout (vm.dataPoints.map DonutSlicerDataPoint.count)) i hlt1
  have g2 : ((renderGroup vm2 vp2).arcs.get ⟨i, h2⟩).fill = category20bColor (0 + i) :=
    get_arcsFrom_fill (min vp2.width vp2.height / 2 - 50) (min vp2.width vp2.height / 2) 0
      (pieLayout (vm2.dataPoints.map DonutSlicerDataPoint.count)) i hlt2
  refine ⟨?_, rfl, g2.trans g1.symm⟩
  rw [g1]
  simp [category20bColor]

theorem c7len : 2 < (renderGroup exampleVM exampleVP).arcs.length := by
  simp only [renderGroup]
  rw [length_arcsFrom, pieLayout, length_pieArcsFrom]
  simp [exampleVM]

/-- Witness for C7: the third arc of the example is palette entry 2. -/
theorem arc_fill_palette_witness :
    ((renderGroup exampleVM exampleVP).arcs.get ⟨2, c7len⟩).fill = "#6b6ecf"
    ∧ category20b.length = 20 :=
  ⟨((arc_fill_palette exampleVM exampleVM exampleVP exampleVP 2 c7len c7len).1).trans rfl,
   (arc_fill_palette exampleVM exampleVM exampleVP exampleVP 2 c7len c7len).2.1⟩

/-! ### C8: what the legend actually shows -/

/-- C8: one legend row per data point and the squares carry the arc colours,
but the text labels are the decimal indices bound from `color.domain()`
(`"0".."3"` at the example), not the category strings — contradicting the
source's own comment (lines 173-177), which says the legend passes labels
such as `'Abulia'` to the scale. -/
theorem legend_labels_are_indices :
    ((renderGroup exampleVM exampleVP).legend.map (fun l => l.label))
        = ["0", "1", "2", "3"]
    ∧ ((renderGroup exampleVM exampleVP).legend.map (fun l => l.label))
        ≠ exampleVM.dataPoints.map (fun d => d.category)
    ∧ (renderGroup exampleVM exampleVP).legend.length = exampleVM.dataPoints.length
    ∧ ((renderGroup exampleVM exampleVP).legend.map (fun l => l.fill))
        = ((renderGroup exampleVM exampleVP).arcs.map (fun a => a.fill)) := by
  refine ⟨rfl, ?_, rfl, rfl⟩
  intro hbad
  have : (["0", "1", "2", "3"] : List String) = ["A", "B", "C", "D"] := by
    calc (["0", "1", "2", "3"] : List String)
        = (renderGroup exampleVM exampleVP).legend.map (fun l => l.label) := rfl
      _ = exampleVM.dataPoints.map (fun d => d.category) := hbad
      _ = ["A", "B", "C", "D"] := rfl
  simp at this

/-! ### C9: repeated updates -/

/-- A fixed two-row update for the repetition experiment. -/
def c9options : Option VisualUpdateOptions :=
  some ⟨some [⟨⟨none⟩, some ⟨[⟨1, some "A"⟩, ⟨3, some "B"⟩]⟩⟩], ⟨80, 60⟩⟩

/-- The surface after one `update` call on a fresh svg. -/
def onceRendered : Except Unit Surface :=
  DonutSlicer.update c9options Surface.empty

/-- The surface after a second, identical `update` call. -/
def twiceRendered : Except Unit Surface :=
  onceRendered.bind (fun s => DonutSlicer.update c9options s)

/-- Counterexample to C9 as stated: after two identical calls the svg holds
two groups of draw instructions, after one call a single group — the repeated
update does not leave the surface identical, because `update` appends a new
group (line 139) and never removes the previous one. -/
theorem repeated_update_accumulates :
    twiceRendered.map (fun s => s.groups.length) = Except.ok 2
    ∧ onceRendered.map (fun s => s.groups.length) = Except.ok 1
    ∧ twiceRendered ≠ onceRendered := by
  refine ⟨rfl, rfl, fun heq => ?_⟩
  have h12 : (Except.ok 2 : Except Unit ℕ) = Except.ok 1 := by
    calc (Except.ok 2 : Except Unit ℕ)
        = twiceRendered.map (fun s => s.groups.length) := rfl
      _ = onceRendered.map (fun s => s.groups.length) := by rw [heq]
      _ = Except.ok 1 := rfl
  simp at h12

/-- The group a successful `update` run appends, read off the options. -/
def appendedGroup (options : Option VisualUpdateOptions) : Option RenderGroup :=
  match options, visualTransform options with
  | some o, Except.ok (some v) => some (renderGroup v o.viewport)
  | _, _ => none

/-- C9 (amended): each successful `update` call with the same options appends
the same single group of draw instructions — the call is deterministic — but
it appends rather than replaces: after a second identical call the surface
holds the first call's group and one more identical copy (and the same
resized width and height). -/
theorem update_appends_same_group (options : Option VisualUpdateOptions)
    (s s1 s2 : Surface)
    (h1 : DonutSlicer.update options s = Except.ok s1)
    (h2 : DonutSlicer.update options s1 = Except.ok s2) :
    s1.groups = s.groups ++ (appendedGroup options).toList
    ∧ s2.groups = s1.groups ++ (appendedGroup options).toList
    ∧ appendedGroup options ≠ none
    ∧ s2.width = s1.width ∧ s2.height = s1.height := by
  cases options with
  | none =>
    rw [show DonutSlicer.update none s = Except.error () from rfl] at h1
    exact absurd h1 (by simp)
  | some o =>
    rcases hvt : visualTransform (some o) with e | vm
    · have hup : DonutSlicer.update (some o) s = Except.error e := by
        simp [DonutSlicer.update, hvt]
      rw [hup] at h1
      exact absurd h1 (by simp)
    · cases vm with
      | none =>
        have hup : DonutSlicer.update (some o) s = Except.error () := by
          simp [DonutSlicer.update, hvt]
        rw [hup] at h1
        exact absurd h1 (by simp)
      | some v =>
        have hg : appendedGroup (some o) = some (renderGroup v o.viewport) := by
          simp [appendedGroup, hvt]
        have e1 : DonutSlicer.update (some o) s
            = Except.ok ⟨o.viewport.width, o.viewport.height,
                s.groups ++ [renderGroup v o.viewport]⟩ := by
          simp [DonutSlicer.update, hvt]
        have e2 : DonutSlicer.update (some o) s1
            = Except.ok ⟨o.viewport.width, o.viewport.height,
                s1.groups ++ [renderGroup v o.viewport]⟩ := by
          simp [DonutSlicer.update, hvt]
        rw [e1] at h1
        rw [e2] at h2
        have hs1 := (Except.ok.inj h1).symm
        have hs2 := (Except.ok.inj h2).symm
        subst hs1
        subst hs2
        refine ⟨by simp [hg], by simp [hg], by simp [hg], rfl, rfl⟩

/-- The view model the C9 options build. -/
def c9vm : DonutSlicerViewModel := ⟨[⟨1, "A"⟩, ⟨3, "B"⟩]⟩

/-- The surface literal after the first C9 update. -/
def c9s1 : Surface := ⟨80, 60, [renderGroup c9vm ⟨80, 60⟩]⟩

/-- The surface literal after the second C9 update. -/
def c9s2 : Surface := ⟨80, 60, [renderGroup c9vm ⟨80, 60⟩, renderGroup c9vm ⟨80, 60⟩]⟩

/-- Witness for C9 (amended) at the concrete two-row options. -/
theorem update_appends_same_group_witness :
    c9s1.groups = Surface.empty.groups ++ (appendedGroup c9options).toList
    ∧ c9s2.groups = c9s1.groups ++ (appendedGroup c9options).toList
    ∧ appendedGroup c9options ≠ none
    ∧ c9s2.width = c9s1.width ∧ c9s2.height = c9s1.height :=
  update_appends_same_group c9options Surface.empty c9s1 c9s2 rfl rfl
